import Mathlib

/-!
Shallow embedding of the gluchy_obrazfon repository: the prompt-feedback loop
of src/main.py, the Describer of src/agents/describer.py and the image
generation tool of src/agents/painter.py. External delegates (hosted text,
vision and image endpoints), the agent framework and the filesystem are
modelled as explicit oracle arguments; everything the repository itself
computes is translated directly from the Python source.
-/

namespace Gluchy

/-- Propositional equality of two Except values is decidable once it is on
both components; needed to evaluate run results on concrete inputs. -/
instance {e a : Type} [DecidableEq e] [DecidableEq a] : DecidableEq (Except e a) := fun x y =>
  match x, y with
  | .ok v, .ok w =>
      if h : v = w then isTrue (by rw [h]) else isFalse (fun hh => h (Except.ok.inj hh))
  | .error v, .error w =>
      if h : v = w then isTrue (by rw [h]) else isFalse (fun hh => h (Except.error.inj hh))
  | .ok _, .error _ => isFalse (fun hh => Except.noConfusion hh)
  | .error _, .ok _ => isFalse (fun hh => Except.noConfusion hh)

set_option maxRecDepth 16384

/-- Python truthiness of an optional environment-variable value, as used by
the all-checks in main.py, painter.py and describer.py: None and the empty
string are falsy, every other string is truthy. -/
def pyTruthy : Option String → Bool
  | none => false
  | some s => !s.data.isEmpty

/-- Python or on two optional strings, as in describer.py line 31: keeps the
first operand when it is truthy, otherwise yields the second. -/
def pyOr (a b : Option String) : Option String :=
  if pyTruthy a then a else b

/-- The characters Python str.strip removes by default, on the ASCII range
this program handles. -/
def pySpace (c : Char) : Bool :=
  c = ' ' || c = '\t' || c = '\n' || c = '\r' || c = '\x0b' || c = '\x0c'

/-- Python str.strip with no argument: remove whitespace from both ends. -/
def pyStrip (s : String) : String :=
  String.mk (((s.data.dropWhile pySpace).reverse.dropWhile pySpace).reverse)

/-- Python str.lower on the ASCII range this program handles. -/
def pyLower (s : String) : String :=
  String.mk (s.data.map Char.toLower)

/-- Python endswith with a string argument. -/
def pyEndsWith (s post : String) : Bool :=
  post.data.isSuffixOf s.data

/-- Python startswith with a one-character string argument: the string is
nonempty and its first character is the given one. -/
def pyStartsWithChar (c : Char) (s : String) : Bool :=
  match s.data with
  | [] => false
  | d :: _ => d = c

/-- Python endswith with a one-character string argument: the string is
nonempty and its last character is the given one. -/
def pyEndsWithChar (c : Char) (s : String) : Bool :=
  match s.data.getLast? with
  | some d => d = c
  | none => false

/-- Split a character list on the slash character, keeping empty pieces,
as Python str.split on a slash. -/
def splitSlash : List Char → List (List Char)
  | [] => [[]]
  | c :: rest =>
      if c = '/' then [] :: splitSlash rest
      else
        match splitSlash rest with
        | [] => [[c]]
        | h :: t => (c :: h) :: t

/-- The environment variables the three source files read. Each field holds
none when the variable is unset and some v when it is set to v. -/
structure Env where
  azure_openai_endpoint : Option String
  azure_openai_api_key : Option String
  azure_openai_api_version : Option String
  azure_openai_deployment_name : Option String
  azure_openai_vision_deployment_name : Option String
  azure_dalle_endpoint : Option String
  azure_dalle_api_key : Option String
deriving DecidableEq, Repr

/-- The configuration test of main.py lines 25 and 79: Python
all of endpoint, api key and deployment name. -/
def textConfigured (env : Env) : Bool :=
  pyTruthy env.azure_openai_endpoint && pyTruthy env.azure_openai_api_key &&
    pyTruthy env.azure_openai_deployment_name

/-- The configuration test of painter.py generate_image line 40: Python
all of the two AZURE_DALLE variables. -/
def dalleConfigured (env : Env) : Bool :=
  pyTruthy env.azure_dalle_endpoint && pyTruthy env.azure_dalle_api_key

/-- The client-construction test of describer.py lines 28 to 43: endpoint,
api key, and the vision deployment name falling back to the ordinary
deployment name, all truthy. -/
def visionConfigured (env : Env) : Bool :=
  pyTruthy env.azure_openai_endpoint && pyTruthy env.azure_openai_api_key &&
    pyTruthy (pyOr env.azure_openai_vision_deployment_name
      env.azure_openai_deployment_name)

/-- Index of the last dot in a character list, as Python rfind of a dot. -/
def lastDotIdx : List Char → Option Nat
  | [] => none
  | c :: rest =>
    match lastDotIdx rest with
    | some i => some (i + 1)
    | none => if c = '.' then some 0 else none

/-- CPython pathlib suffix of a pure file name: the slice from the last dot
on, provided that dot is neither the first nor the last character of the
name; the empty string otherwise. -/
def pySuffixOfName (name : String) : String :=
  let cs := name.toList
  match lastDotIdx cs with
  | none => ""
  | some i => if 0 < i && i < cs.length - 1 then String.mk (cs.drop i) else ""

/-- Final component of a posix path, as pathlib name on the paths this
program manipulates: the last nonempty slash-separated part. -/
def pyName (path : String) : String :=
  String.mk (((splitSlash path.data).filter (fun cs => !cs.isEmpty)).getLastD [])

/-- Pathlib suffix of a path: the suffix of its final component. -/
def pySuffix (path : String) : String :=
  pySuffixOfName (pyName path)

/-- The format condition of describer.py line 64: the lowercased pathlib
suffix of the path ends with the three characters p n g. -/
def pngSuffix (path : String) : Bool :=
  pyEndsWith (pyLower (pySuffix path)) "png"

/-- Pixel metadata PIL recovers from a decodable image: width, height and
color mode, as read in describer.py lines 57 to 60. -/
structure ImageMeta where
  width : Nat
  height : Nat
  mode : String
deriving DecidableEq, Repr

/-- What the filesystem holds at a given path, as far as the Describer
observes it: whether the path exists, and the metadata PIL extracts when
the contents decode as an image (none models UnidentifiedImageError). -/
structure FileView where
  existsOnDisk : Bool
  decoded : Option ImageMeta
deriving DecidableEq, Repr

/-- One content entry of a response output item, modelling the dictionaries
inspected in describer.py lines 96 to 101: a type tag and a text payload. -/
structure RespDetail where
  dtype : String
  text : String
deriving DecidableEq, Repr

/-- One output item of a vision response; content is none when the item is
not a dictionary or its content field is not a list. -/
structure RespItem where
  content : Option (List RespDetail)
deriving DecidableEq, Repr

/-- A response of the hosted vision endpoint as describer.py consumes it:
an optional output_text attribute and an optional output list. -/
structure VisionResponse where
  output_text : Option String
  output : Option (List RespItem)
deriving DecidableEq, Repr

/-- Outcome of one call to the captioning delegate: either the call raises,
or it returns a response object. -/
inductive DelegateOutcome where
  | raises (msg : String)
  | returns (resp : VisionResponse)
deriving DecidableEq, Repr

/-- The errors ImageDescriber.describe raises: FileNotFoundError at line 54,
ValueError at line 62 for an undecodable file, ValueError at line 65 for a
suffix that does not denote PNG. -/
inductive DescribeError where
  | fileNotFound (msg : String)
  | invalidImage (msg : String)
  | formatMismatch (msg : String)
deriving DecidableEq, Repr

/-- The deterministic metadata caption assembled in describer.py
lines 111 to 115. -/
def fallbackCaption (m : ImageMeta) : String :=
  "The image is " ++ toString m.width ++ " by " ++ toString m.height ++
    " pixels with " ++ m.mode ++
    " color mode. A detailed description could not be generated automatically. " ++
    "Please try again once the Azure OpenAI configuration is available."

/-- The per-item accumulation loop of describer.py lines 95 to 101:
concatenate the text of every content detail whose type tag is
output_text. -/
def assembleOutput (items : List RespItem) : String :=
  items.foldl
    (fun acc item =>
      match item.content with
      | some details =>
          details.foldl
            (fun acc2 d => if d.dtype = "output_text" then acc2 ++ d.text else acc2)
            acc
      | none => acc)
    ""

/-- The description extracted from a response in describer.py lines 90
to 102: the output_text attribute when present, otherwise the assembled
and stripped concatenation of output items. -/
def parseDescription (resp : VisionResponse) : String :=
  match resp.output_text with
  | some s => s
  | none =>
      pyStrip
        (match resp.output with
         | some items => assembleOutput items
         | none => "")

/-- Result of one describe call: the value returned or the error raised,
whether the captioning delegate was invoked, and the lines printed. -/
structure DescribeOutcome where
  result : Except DescribeError String
  delegateInvoked : Bool
  logLines : List String
deriving Repr

/-- ImageDescriber.describe of describer.py lines 45 to 115, with the
configured-client flag, the delegate outcome and the filesystem view passed
explicitly. String trimming follows Python strip on ordinary whitespace. -/
def describe (clientConfigured : Bool) (delegate : DelegateOutcome)
    (image_path : String) (file : FileView) : DescribeOutcome :=
  if !file.existsOnDisk then
    { result := .error (.fileNotFound ("Image not found: " ++ image_path)),
      delegateInvoked := false, logLines := [] }
  else
    match file.decoded with
    | none =>
        { result := .error (.invalidImage ("Unable to open image at " ++ image_path)),
          delegateInvoked := false, logLines := [] }
    | some meta =>
        if !pngSuffix image_path then
          { result := .error (.formatMismatch ("Expected a PNG image, received: " ++
              (if (pySuffix image_path).data.isEmpty then "unknown extension"
               else pySuffix image_path))),
            delegateInvoked := false, logLines := [] }
        else if clientConfigured then
          match delegate with
          | .raises msg =>
              { result := .ok (fallbackCaption meta), delegateInvoked := true,
                logLines := ["Failed to generate description: " ++ msg] }
          | .returns resp =>
              let description := parseDescription resp
              if !description.data.isEmpty then
                { result := .ok (pyStrip description), delegateInvoked := true,
                  logLines := [] }
              else
                { result := .ok (fallbackCaption meta), delegateInvoked := true,
                  logLines := [] }
        else
          { result := .ok (fallbackCaption meta), delegateInvoked := false,
            logLines := [] }

/-- describe_image of describer.py lines 118 to 120: a fresh ImageDescriber
built from the environment, then describe. -/
def describe_image (env : Env) (delegate : DelegateOutcome)
    (image_path : String) (file : FileView) : DescribeOutcome :=
  describe (visionConfigured env) delegate image_path file

/-- An input the Describer validation accepts: the path exists, the contents
decode, and the lowercased pathlib suffix ends with png. -/
def validInput (image_path : String) (file : FileView) : Bool :=
  file.existsOnDisk && file.decoded.isSome && pngSuffix image_path

/-- The errors generate_image of painter.py raises: the ValueError of
lines 19 to 23 when the AZURE_DALLE variables are missing, and the
RuntimeError of lines 64 to 65 wrapping any delegate or transfer failure. -/
inductive PainterError where
  | valueErrorConfig (msg : String)
  | runtimeGenerationError (msg : String)
deriving DecidableEq, Repr

/-- A filesystem effect generate_image performs: creating the output
directory, or writing the downloaded image file. -/
inductive FsEffect where
  | mkdirOutput (dir : String)
  | writeImage (path : String)
deriving DecidableEq, Repr

/-- generate_image of painter.py lines 21 to 85: the hosted image call and
the download are oracles, the timestamp is the formatted current time. The
second component lists the filesystem entries created, in order. -/
def generate_image (env : Env) (imagesResult : Except String String)
    (downloadOk : Except String Unit) (timestamp : String)
    (_prompt : String) (output_dir : String) :
    Except PainterError String × List FsEffect :=
  if !dalleConfigured env then
    (.error (.valueErrorConfig ("Missing required environment variables. " ++
        "Please set AZURE_OPENAI_ENDPOINT and AZURE_OPENAI_API_KEY")), [])
  else
    match imagesResult with
    | .error e =>
        (.error (.runtimeGenerationError ("Failed to generate image: " ++ e)), [])
    | .ok _url =>
        let filepath := output_dir ++ "/image_" ++ timestamp ++ ".png"
        match downloadOk with
        | .error e =>
            (.error (.runtimeGenerationError ("Failed to generate image: " ++ e)),
             [.mkdirOutput output_dir])
        | .ok _ =>
            (.ok filepath, [.mkdirOutput output_dir, .writeImage filepath])

/-- Python slicing with indices one and minus one, as used on the prompt in
main.py lines 60 and 62: drop the first and the last character. -/
def pyDropEnds (s : String) : String :=
  String.mk ((s.data.drop 1).dropLast)

/-- Whether a string starts and ends with a double quote, the condition of
main.py line 59. -/
def dqWrapped (s : String) : Bool :=
  pyStartsWithChar '\x22' s && pyEndsWithChar '\x22' s

/-- Whether a string starts and ends with a single quote, the condition of
main.py line 61. -/
def sqWrapped (s : String) : Bool :=
  pyStartsWithChar '\x27' s && pyEndsWithChar '\x27' s

/-- The quote handling of main.py lines 57 to 64: strip the content, remove
a wrapping double-quote pair when the first and last characters are double
quotes, then remove a wrapping single-quote pair from the result when its
first and last characters are single quotes. -/
def stripWrappingQuotes (content : String) : String :=
  let p0 := pyStrip content
  let p1 := if dqWrapped p0 then pyDropEnds p0 else p0
  let p2 := if sqWrapped p1 then pyDropEnds p1 else p1
  p2

/-- The errors generate_random_initial_prompt of main.py raises: the
ValueError of lines 25 to 30 and the RuntimeError of lines 66 to 67. -/
inductive PromptError where
  | valueErrorConfig (msg : String)
  | runtimeError (msg : String)
deriving DecidableEq, Repr

/-- generate_random_initial_prompt of main.py lines 15 to 67, with the
hosted completion call passed as an oracle yielding the message content. -/
def generate_random_initial_prompt (env : Env)
    (completion : Except String String) : Except PromptError String :=
  if !textConfigured env then
    .error (.valueErrorConfig
      ("Missing required environment variables for prompt generation. " ++
       "Please set AZURE_OPENAI_ENDPOINT, AZURE_OPENAI_API_KEY, " ++
       "and AZURE_OPENAI_DEPLOYMENT_NAME"))
  else
    match completion with
    | .error e => .error (.runtimeError ("Failed to generate initial prompt: " ++ e))
    | .ok content => .ok (stripWrappingQuotes content)

/-- Trace of one loop iteration of main.py lines 102 to 122: the current
prompt at iteration start, the task string handed to the painter agent, the
image path the agent returned, and the caption the Describer produced. -/
structure IterationRecord where
  promptUsed : String
  taskSent : String
  imagePath : String
  caption : String
deriving DecidableEq, Repr

/-- How a run of main aborts: the startup ValueError of main.py lines 79
to 84, an error from the seed-prompt call, an exception raised out of the
painter agent run at some iteration, or an exception raised out of the
Describer at some iteration. -/
inductive RunError where
  | startupConfig (msg : String)
  | seedFailure (err : PromptError)
  | painterFailure (iteration : Nat) (msg : String)
  | describerFailure (iteration : Nat) (err : DescribeError)
deriving DecidableEq, Repr

/-- The iteration loop of main.py lines 102 to 122. The painter agent run,
the filesystem and the captioning delegate are oracles indexed by iteration
number; n counts the remaining iterations and k is the number of the
current one, so the call for range one to five is with n four and k one.
Each iteration hands the agent the task string built from the current
prompt, describes the returned path, and threads the caption forward. -/
def runIterations (clientConfigured : Bool)
    (painter : Nat → String → Except String String)
    (fs : String → FileView) (delegate : Nat → DelegateOutcome) :
    Nat → Nat → String → Except RunError (List IterationRecord)
  | 0, _, _ => .ok []
  | n + 1, k, current =>
    let task := "Generate an image: " ++ current
    match painter k task with
    | .error e => .error (.painterFailure k e)
    | .ok imagePath =>
        match (describe clientConfigured (delegate k) imagePath (fs imagePath)).result with
        | .error de => .error (.describerFailure k de)
        | .ok caption =>
            match runIterations clientConfigured painter fs delegate n (k + 1) caption with
            | .error e => .error e
            | .ok rest =>
                .ok ({ promptUsed := current, taskSent := task,
                       imagePath := imagePath, caption := caption } :: rest)

/-- main of main.py lines 70 to 128: check the text configuration, build the
painter agent (whose own configuration check repeats the same condition and
therefore passes whenever the startup check passed), obtain the seed prompt,
then run four iterations starting at iteration number one. -/
def main (env : Env) (seedCompletion : Except String String)
    (painter : Nat → String → Except String String)
    (fs : String → FileView) (delegate : Nat → DelegateOutcome) :
    Except RunError (List IterationRecord) :=
  if !textConfigured env then
    .error (.startupConfig ("Missing required environment variables. " ++
      "Please set AZURE_OPENAI_ENDPOINT, AZURE_OPENAI_API_KEY, " ++
      "and AZURE_OPENAI_DEPLOYMENT_NAME"))
  else
    match generate_random_initial_prompt env seedCompletion with
    | .error pe => .error (.seedFailure pe)
    | .ok initial => runIterations (visionConfigured env) painter fs delegate 4 1 initial

/-- A painter agent whose run surfaces exactly the behaviour of the
generate_image tool on the configured environment: the returned path when
the tool succeeds, and a raised error carrying the tool message otherwise. -/
def painterFromTool (env : Env) (imagesResult : Except String String)
    (downloadOk : Except String Unit) (timestamp : String) :
    Nat → String → Except String String :=
  fun _ task =>
    match (generate_image env imagesResult downloadOk timestamp task "generated_images").1 with
    | .ok p => .ok p
    | .error (.valueErrorConfig m) => .error m
    | .error (.runtimeGenerationError m) => .error m

/-- The quote handling as the specification words it: after trimming, when
the string is wrapped in a pair of double quotes or in a pair of single
quotes, exactly one wrapping pair is removed; otherwise the trimmed string
is returned unchanged. Stated for comparison with stripWrappingQuotes. -/
def stripWrappingQuotesClaim (content : String) : String :=
  let p := pyStrip content
  if dqWrapped p || sqWrapped p then pyDropEnds p else p

/-- The task string of a given record of a completed run, when it exists. -/
def runTaskAt (r : Except RunError (List IterationRecord)) (i : Nat) : Option String :=
  match r with
  | .ok rs => (rs[i]?).map IterationRecord.taskSent
  | .error _ => none

/-- The caption of a given record of a completed run, when it exists. -/
def runCaptionAt (r : Except RunError (List IterationRecord)) (i : Nat) : Option String :=
  match r with
  | .ok rs => (rs[i]?).map IterationRecord.caption
  | .error _ => none

/-- Whether a run result is the startup configuration ValueError of main. -/
def isStartupConfigError : Except RunError (List IterationRecord) → Bool
  | .error (.startupConfig _) => true
  | _ => false

/-- The records of a run chain correctly from a starting prompt: each record
uses the expected current prompt, sends the task string built from it, and
hands its caption to the next record as the new current prompt. -/
def chainedFrom : String → List IterationRecord → Prop
  | _, [] => True
  | current, r :: rest =>
      r.promptUsed = current ∧ r.taskSent = "Generate an image: " ++ current ∧
        chainedFrom r.caption rest

/-- A filesystem on which every path holds a valid 512 by 512 RGB PNG. -/
def demoFs : String → FileView :=
  fun _ => { existsOnDisk := true, decoded := some { width := 512, height := 512, mode := "RGB" } }

/-- A valid 512 by 512 RGB image file view. -/
def demoFileRGB : FileView :=
  { existsOnDisk := true, decoded := some { width := 512, height := 512, mode := "RGB" } }

/-- A captioning delegate that always raises. -/
def demoDelegate : Nat → DelegateOutcome := fun _ => .raises "service unavailable"

/-- An environment with the text-completion variables set and both
AZURE_DALLE variables unset. -/
def demoEnvNoDalle : Env :=
  { azure_openai_endpoint := some "https://example.endpoint"
    azure_openai_api_key := some "key"
    azure_openai_api_version := none
    azure_openai_deployment_name := some "gpt"
    azure_openai_vision_deployment_name := none
    azure_dalle_endpoint := none
    azure_dalle_api_key := none }

/-- An environment with every variable unset. -/
def demoEnvEmpty : Env :=
  { azure_openai_endpoint := none
    azure_openai_api_key := none
    azure_openai_api_version := none
    azure_openai_deployment_name := none
    azure_openai_vision_deployment_name := none
    azure_dalle_endpoint := none
    azure_dalle_api_key := none }

/-- A run of the loop against oracles on which every call succeeds with the
describer in degraded mode: every caption is the deterministic fallback. -/
def demoRun : Except RunError (List IterationRecord) :=
  runIterations false (fun _ _ => .ok "generated_images/img.png") demoFs
    (fun _ => .raises "x") 4 1 "seed"

/-- A filesystem on which no path exists. -/
def demoBadFs : String → FileView :=
  fun _ => { existsOnDisk := false, decoded := none }

/-- On an input the validation accepts, describe never raises: every branch
after the three checks returns a caption. -/
theorem describe_valid_ok (cfg : Bool) (d : DelegateOutcome) (image_path : String)
    (file : FileView) (h : validInput image_path file = true) :
    ∃ c, (describe cfg d image_path file).result = Except.ok c := by
  obtain ⟨ex, dec⟩ := file
  simp only [validInput, Bool.and_eq_true] at h
  obtain ⟨⟨h1, h2⟩, h3⟩ := h
  subst h1
  obtain ⟨m, hm⟩ := Option.isSome_iff_exists.mp h2
  subst hm
  simp only [describe, Bool.not_true, Bool.false_eq_true, if_false, h3]
  cases cfg with
  | false => exact ⟨_, rfl⟩
  | true =>
      cases d with
      | raises msg => exact ⟨_, rfl⟩
      | returns resp =>
          rcases hd : (parseDescription resp).data.isEmpty with _ | _ <;>
            simp [hd]

/-- With a painter whose calls all succeed and return paths of valid image
files, the loop completes all remaining iterations, produces one record per
iteration, and chains the records from the starting prompt. -/
theorem runIterations_ok (cfg : Bool) (painter : Nat → String → Except String String)
    (fs : String → FileView) (delegate : Nat → DelegateOutcome)
    (hp : ∀ k task, ∃ p, painter k task = .ok p ∧ validInput p (fs p) = true) :
    ∀ n k current, ∃ records,
      runIterations cfg painter fs delegate n k current = .ok records ∧
        records.length = n ∧ chainedFrom current records := by
  intro n
  induction n with
  | zero => exact fun k current => ⟨[], rfl, rfl, trivial⟩
  | succ n ih =>
      intro k current
      obtain ⟨p, hp1, hv⟩ := hp k ("Generate an image: " ++ current)
      obtain ⟨c, hc⟩ := describe_valid_ok cfg (delegate k) p (fs p) hv
      obtain ⟨rest, hrest, hlen, hch⟩ := ih (k + 1) c
      refine ⟨{ promptUsed := current, taskSent := "Generate an image: " ++ current,
                imagePath := p, caption := c } :: rest, ?_, ?_, ?_⟩
      · simp only [runIterations, hp1, hc, hrest]
      · simp [hlen]
      · exact ⟨rfl, rfl, hch⟩

/-- Chained records read off by position: each record after the first sends
the task built from the previous caption and uses it as its prompt. -/
theorem chainedFrom_get (l : List IterationRecord) :
    ∀ current, chainedFrom current l →
      ∀ i a b, l[i]? = some a → l[i + 1]? = some b →
        b.taskSent = "Generate an image: " ++ a.caption ∧ b.promptUsed = a.caption := by
  induction l with
  | nil => intro current _ i a b ha; simp at ha
  | cons r rest ih =>
      intro current h i a b ha hb
      obtain ⟨_, _, h3⟩ := h
      cases i with
      | zero =>
          simp only [List.getElem?_cons_zero, Option.some.injEq] at ha
          subst ha
          simp only [List.getElem?_cons_succ] at hb
          cases rest with
          | nil => simp at hb
          | cons s t =>
              simp only [List.getElem?_cons_zero, Option.some.injEq] at hb
              subst hb
              obtain ⟨hs1, hs2, _⟩ := h3
              exact ⟨hs2, hs1⟩
      | succ j =>
          simp only [List.getElem?_cons_succ] at ha hb
          exact ih r.caption h3 j a b ha hb

/-- C2: for every image path that passes the validation of describe, a
raising captioning delegate is logged and the deterministic metadata
fallback caption is returned; the delegate error never propagates out of
the describe call. -/
theorem C2_delegate_error_degrades (image_path : String) (file : FileView)
    (msg : String) (hv : validInput image_path file = true) :
    ∃ m, file.decoded = some m ∧
      (describe true (.raises msg) image_path file).result =
        .ok (fallbackCaption m) ∧
      (describe true (.raises msg) image_path file).logLines =
        ["Failed to generate description: " ++ msg] := by
  obtain ⟨ex, dec⟩ := file
  simp only [validInput, Bool.and_eq_true] at hv
  obtain ⟨⟨h1, h2⟩, h3⟩ := hv
  subst h1
  obtain ⟨m, hm⟩ := Option.isSome_iff_exists.mp h2
  subst hm
  refine ⟨m, rfl, ?_, ?_⟩ <;>
    simp only [describe, h3, Bool.not_true, Bool.false_eq_true, if_false, if_true]

/-- Witness for C2 at a concrete valid file and delegate error. -/
theorem C2_delegate_error_degrades_witness :
    validInput "a.png" demoFileRGB = true ∧
    ∃ m, demoFileRGB.decoded = some m ∧
      (describe true (.raises "service unavailable") "a.png" demoFileRGB).result =
        .ok (fallbackCaption m) ∧
      (describe true (.raises "service unavailable") "a.png" demoFileRGB).logLines =
        ["Failed to generate description: " ++ "service unavailable"] :=
  ⟨by decide, C2_delegate_error_degrades "a.png" demoFileRGB "service unavailable" (by decide)⟩

/-- C3: with no captioning delegate configured, describe of a valid image
returns exactly the deterministic template filled with the actual width,
height and color mode of the image. -/
theorem C3_degraded_caption_exact (env : Env) (d : DelegateOutcome)
    (image_path : String) (file : FileView)
    (hcfg : visionConfigured env = false) (hv : validInput image_path file = true) :
    ∃ m, file.decoded = some m ∧
      (describe_image env d image_path file).result = .ok
        ("The image is " ++ toString m.width ++ " by " ++ toString m.height ++
          " pixels with " ++ m.mode ++
          " color mode. A detailed description could not be generated automatically. " ++
          "Please try again once the Azure OpenAI configuration is available.") := by
  obtain ⟨ex, dec⟩ := file
  simp only [validInput, Bool.and_eq_true] at hv
  obtain ⟨⟨h1, h2⟩, h3⟩ := hv
  subst h1
  obtain ⟨m, hm⟩ := Option.isSome_iff_exists.mp h2
  subst hm
  refine ⟨m, rfl, ?_⟩
  simp only [describe_image, hcfg, describe, h3, Bool.not_true, Bool.false_eq_true,
    if_false, Bool.not_false, if_true]
  rfl

/-- Witness for C3 at a concrete valid file and empty environment. -/
theorem C3_degraded_caption_exact_witness :
    visionConfigured demoEnvEmpty = false ∧ validInput "a.png" demoFileRGB = true ∧
    ∃ m, demoFileRGB.decoded = some m ∧
      (describe_image demoEnvEmpty (.raises "x") "a.png" demoFileRGB).result = .ok
        ("The image is " ++ toString m.width ++ " by " ++ toString m.height ++
          " pixels with " ++ m.mode ++
          " color mode. A detailed description could not be generated automatically. " ++
          "Please try again once the Azure OpenAI configuration is available.") :=
  ⟨by decide, by decide,
    C3_degraded_caption_exact demoEnvEmpty (.raises "x") "a.png" demoFileRGB (by decide) (by decide)⟩

/-- C4: with a configured delegate returning a non-empty string as its
output text, describe of a valid image returns that string with leading and
trailing whitespace removed. -/
theorem C4_nonempty_caption_trimmed (image_path : String) (file : FileView)
    (s : String) (o : Option (List RespItem))
    (hv : validInput image_path file = true) (hs : s ≠ "") :
    (describe true (.returns { output_text := some s, output := o })
        image_path file).result = .ok (pyStrip s) := by
  obtain ⟨ex, dec⟩ := file
  simp only [validInput, Bool.and_eq_true] at hv
  obtain ⟨⟨h1, h2⟩, h3⟩ := hv
  subst h1
  obtain ⟨m, hm⟩ := Option.isSome_iff_exists.mp h2
  subst hm
  have hse : s.data.isEmpty = false := by
    rcases hd : s.data with _ | ⟨c, cs⟩
    · exact absurd (String.ext (hd.trans rfl)) hs
    · rfl
  simp only [describe, h3, Bool.not_true, Bool.false_eq_true, if_false,
    parseDescription, hse, Bool.not_false, if_true]

/-- Witness for C4 at a concrete valid file and delegate output. -/
theorem C4_nonempty_caption_trimmed_witness :
    validInput "a.png" demoFileRGB = true ∧ "  a cat on a mat  " ≠ "" ∧
    (describe true (.returns { output_text := some "  a cat on a mat  ", output := none })
        "a.png" demoFileRGB).result = .ok (pyStrip "  a cat on a mat  ") :=
  ⟨by decide, by decide,
    C4_nonempty_caption_trimmed "a.png" demoFileRGB "  a cat on a mat  " none (by decide) (by decide)⟩

/-- C7: with the AZURE_DALLE configuration missing, generate_image raises
the configuration ValueError and performs no filesystem effect: neither the
output directory nor any file is created. -/
theorem C7_config_error_no_files (env : Env) (imagesResult : Except String String)
    (downloadOk : Except String Unit) (timestamp p output_dir : String)
    (hd : dalleConfigured env = false) :
    generate_image env imagesResult downloadOk timestamp p output_dir =
      (.error (.valueErrorConfig ("Missing required environment variables. " ++
          "Please set AZURE_OPENAI_ENDPOINT and AZURE_OPENAI_API_KEY")), []) := by
  simp only [generate_image, hd, Bool.not_false, if_true]

/-- Witness for C7 at the empty environment. -/
theorem C7_config_error_no_files_witness :
    dalleConfigured demoEnvEmpty = false ∧
    generate_image demoEnvEmpty (.ok "https://img.example/u.png") (.ok ())
        "20240101_120000" "a lighthouse" "generated_images" =
      (.error (.valueErrorConfig ("Missing required environment variables. " ++
          "Please set AZURE_OPENAI_ENDPOINT and AZURE_OPENAI_API_KEY")), []) :=
  ⟨by decide, C7_config_error_no_files demoEnvEmpty (.ok "https://img.example/u.png") (.ok ())
    "20240101_120000" "a lighthouse" "generated_images" (by decide)⟩

/-- C8: for an existing path whose contents do not decode as an image,
describe raises the invalid-image ValueError and never invokes the
captioning delegate. -/
theorem C8_undecodable_never_delegates (cfg : Bool) (d : DelegateOutcome)
    (image_path : String) (file : FileView)
    (hex : file.existsOnDisk = true) (hdec : file.decoded = none) :
    (describe cfg d image_path file).result =
        .error (.invalidImage ("Unable to open image at " ++ image_path)) ∧
    (describe cfg d image_path file).delegateInvoked = false := by
  obtain ⟨ex, dec⟩ := file
  simp only at hex hdec
  subst hex
  subst hdec
  exact ⟨rfl, rfl⟩

/-- Witness for C8 at a concrete existing but undecodable file. -/
theorem C8_undecodable_never_delegates_witness :
    (FileView.existsOnDisk { existsOnDisk := true, decoded := none }) = true ∧
    (FileView.decoded { existsOnDisk := true, decoded := none }) = none ∧
    (describe true (.raises "x") "corrupt.png"
        { existsOnDisk := true, decoded := none }).result =
      .error (.invalidImage ("Unable to open image at " ++ "corrupt.png")) ∧
    (describe true (.raises "x") "corrupt.png"
        { existsOnDisk := true, decoded := none }).delegateInvoked = false :=
  ⟨rfl, rfl, C8_undecodable_never_delegates true (.raises "x") "corrupt.png"
    { existsOnDisk := true, decoded := none } rfl rfl⟩

/-- C10: on an existing decodable file the format check accepts exactly the
paths whose lowercased pathlib suffix ends with the characters p n g, so
uppercase PNG and the apng and xpng suffixes pass while other suffixes and
paths without an extension raise the format ValueError; an undecodable file
reports the invalid-image error instead, so the format check runs only
after decoding succeeded. -/
theorem C10_suffix_check :
    (∀ (cfg : Bool) (d : DelegateOutcome) (image_path : String) (file : FileView),
        file.existsOnDisk = true → file.decoded.isSome = true →
        pngSuffix image_path = true →
        ∃ c, (describe cfg d image_path file).result = .ok c) ∧
    (∀ (cfg : Bool) (d : DelegateOutcome) (image_path : String) (file : FileView),
        file.existsOnDisk = true → file.decoded.isSome = true →
        pngSuffix image_path = false →
        (describe cfg d image_path file).result = .error (.formatMismatch
          ("Expected a PNG image, received: " ++
            (if (pySuffix image_path).data.isEmpty then "unknown extension"
             else pySuffix image_path)))) ∧
    (∀ (cfg : Bool) (d : DelegateOutcome) (image_path : String) (file : FileView),
        file.existsOnDisk = true → file.decoded = none → pngSuffix image_path = false →
        (describe cfg d image_path file).result =
          .error (.invalidImage ("Unable to open image at " ++ image_path))) ∧
    (pngSuffix "a.PNG" = true ∧ pngSuffix "a.apng" = true ∧ pngSuffix "a.xpng" = true ∧
      pngSuffix "a.jpg" = false ∧ pngSuffix "noext" = false) := by
  refine ⟨?_, ?_, ?_, ?_⟩
  · intro cfg d image_path file hex hsome hpng
    exact describe_valid_ok cfg d image_path file (by simp [validInput, hex, hsome, hpng])
  · intro cfg d image_path file hex hsome hpng
    obtain ⟨ex, dec⟩ := file
    simp only at hex
    subst hex
    obtain ⟨m, hm⟩ := Option.isSome_iff_exists.mp hsome
    subst hm
    simp only [describe, hpng, Bool.not_false, Bool.not_true, Bool.false_eq_true,
      if_false, if_true]
  · intro cfg d image_path file hex hdec _
    obtain ⟨ex, dec⟩ := file
    simp only at hex hdec
    subst hex
    subst hdec
    rfl
  · decide

/-- Witness for C10 at concrete accepted and rejected paths. -/
theorem C10_suffix_check_witness :
    (∃ c, (describe false (.raises "x") "x.apng" demoFileRGB).result = .ok c) ∧
    (describe false (.raises "x") "plain" demoFileRGB).result = .error (.formatMismatch
      ("Expected a PNG image, received: " ++
        (if (pySuffix "plain").data.isEmpty then "unknown extension"
         else pySuffix "plain"))) ∧
    (describe false (.raises "x") "bad.jpg"
        { existsOnDisk := true, decoded := none }).result =
      .error (.invalidImage ("Unable to open image at " ++ "bad.jpg")) :=
  ⟨C10_suffix_check.1 false (.raises "x") "x.apng" demoFileRGB (by decide) (by decide)
      (by decide),
   C10_suffix_check.2.1 false (.raises "x") "plain" demoFileRGB (by decide) (by decide)
      (by decide),
   C10_suffix_check.2.2.1 false (.raises "x") "bad.jpg"
      { existsOnDisk := true, decoded := none } (by decide) (by decide) (by decide)⟩

/-- C9 counterexample: on delegate output wrapped in double quotes around
single quotes, the code removes both pairs, while removing exactly one
wrapping pair as the claim states would keep the inner single quotes. -/
theorem C9_counterexample :
    stripWrappingQuotes "\x22\x27abc\x27\x22" = "abc" ∧
    stripWrappingQuotesClaim "\x22\x27abc\x27\x22" = "\x27abc\x27" ∧
    stripWrappingQuotes "\x22\x27abc\x27\x22" ≠
      stripWrappingQuotesClaim "\x22\x27abc\x27\x22" :=
  ⟨by decide, by decide, by decide⟩

/-- C9 as amended: the trimmed delegate output loses a wrapping double-quote
pair when present, and then the result loses a wrapping single-quote pair
when present, so a double-quote pair around a single-quote pair loses both;
a string wrapped in neither kind of pair is returned trimmed, unchanged. -/
theorem C9_amended (s : String) :
    (dqWrapped (pyStrip s) = true → sqWrapped (pyDropEnds (pyStrip s)) = true →
        stripWrappingQuotes s = pyDropEnds (pyDropEnds (pyStrip s))) ∧
    (dqWrapped (pyStrip s) = true → sqWrapped (pyDropEnds (pyStrip s)) = false →
        stripWrappingQuotes s = pyDropEnds (pyStrip s)) ∧
    (dqWrapped (pyStrip s) = false → sqWrapped (pyStrip s) = true →
        stripWrappingQuotes s = pyDropEnds (pyStrip s)) ∧
    (dqWrapped (pyStrip s) = false → sqWrapped (pyStrip s) = false →
        stripWrappingQuotes s = pyStrip s) := by
  refine ⟨?_, ?_, ?_, ?_⟩ <;> intro h1 h2 <;>
    simp only [stripWrappingQuotes, h1, h2, if_true, if_false, Bool.false_eq_true]

/-- Witness for C9 as amended, at a doubly wrapped and an unwrapped input. -/
theorem C9_amended_witness :
    stripWrappingQuotes "\x22\x27abc\x27\x22" =
      pyDropEnds (pyDropEnds (pyStrip "\x22\x27abc\x27\x22")) ∧
    stripWrappingQuotes " plain prompt " = pyStrip " plain prompt " :=
  ⟨(C9_amended "\x22\x27abc\x27\x22").1 (by decide) (by decide),
   (C9_amended " plain prompt ").2.2.2 (by decide) (by decide)⟩

/-- C1 counterexample: on a run with four succeeding generator and describer
calls, the prompt passed to generator call two is the caption of describer
call one with the task prefix in front, not the caption itself. -/
theorem C1_counterexample :
    runTaskAt demoRun 1 = some ("Generate an image: " ++
        fallbackCaption { width := 512, height := 512, mode := "RGB" }) ∧
    runCaptionAt demoRun 0 =
      some (fallbackCaption { width := 512, height := 512, mode := "RGB" }) ∧
    runTaskAt demoRun 1 ≠ runCaptionAt demoRun 0 :=
  ⟨by decide, by decide, by decide⟩

/-- C1 as amended: with every generator call succeeding on a valid image
file, the four-iteration loop performs exactly four generator calls and four
describer calls, one record each, and the prompt passed to generator call
k plus one is the caption of describer call k prefixed with the fixed task
text; the threaded current prompt equals that caption exactly. -/
theorem C1_amended (cfg : Bool) (painter : Nat → String → Except String String)
    (fs : String → FileView) (delegate : Nat → DelegateOutcome) (seed : String)
    (hp : ∀ k task, ∃ p, painter k task = .ok p ∧ validInput p (fs p) = true) :
    ∃ records,
      runIterations cfg painter fs delegate 4 1 seed = .ok records ∧
        records.length = 4 ∧
        ∀ i a b, records[i]? = some a → records[i + 1]? = some b →
          b.taskSent = "Generate an image: " ++ a.caption ∧ b.promptUsed = a.caption := by
  obtain ⟨records, h1, h2, h3⟩ := runIterations_ok cfg painter fs delegate hp 4 1 seed
  exact ⟨records, h1, h2, chainedFrom_get records seed h3⟩

/-- Witness for C1 as amended, at concrete always-succeeding oracles. -/
theorem C1_amended_witness :
    ∃ records,
      runIterations false (fun _ _ => .ok "generated_images/img.png") demoFs
          (fun _ => .raises "x") 4 1 "seed" = .ok records ∧
        records.length = 4 ∧
        ∀ i a b, records[i]? = some a → records[i + 1]? = some b →
          b.taskSent = "Generate an image: " ++ a.caption ∧ b.promptUsed = a.caption :=
  C1_amended false (fun _ _ => .ok "generated_images/img.png") demoFs
    (fun _ => .raises "x") "seed"
    (fun _ _ => ⟨"generated_images/img.png", rfl, by decide⟩)

/-- C5 counterexample: a describer input-validation failure does abort the
run; here the painter succeeds but returns a path that does not exist, and
the whole loop stops with the describer error of iteration one. -/
theorem C5_counterexample :
    runIterations false (fun _ _ => .ok "bad.png") demoBadFs (fun _ => .raises "x")
        4 1 "seed" =
      .error (.describerFailure 1 (.fileNotFound "Image not found: bad.png")) := by
  decide

/-- C5 as amended: a painter failure at the current iteration aborts the
whole remaining run as that iteration's painter failure; a raising
captioning delegate never makes describe raise, which returns the fallback
caption instead; and with valid images throughout, a run whose captioning
delegate always raises still completes every iteration. Describer
input-validation errors, by contrast, do abort the run. -/
theorem C5_amended :
    (∀ (cfg : Bool) (painter : Nat → String → Except String String)
        (fs : String → FileView) (delegate : Nat → DelegateOutcome)
        (n k : Nat) (current e : String),
        painter k ("Generate an image: " ++ current) = .error e →
        runIterations cfg painter fs delegate (n + 1) k current =
          .error (.painterFailure k e)) ∧
    (∀ (cfg : Bool) (msg image_path : String) (file : FileView),
        validInput image_path file = true →
        ∃ m, file.decoded = some m ∧
          (describe cfg (.raises msg) image_path file).result =
            .ok (fallbackCaption m)) ∧
    (∀ (cfg : Bool) (painter : Nat → String → Except String String)
        (fs : String → FileView) (msg : String) (n k : Nat) (current : String),
        (∀ j task, ∃ p, painter j task = .ok p ∧ validInput p (fs p) = true) →
        ∃ records,
          runIterations cfg painter fs (fun _ => .raises msg) n k current =
            .ok records ∧ records.length = n) := by
  refine ⟨?_, ?_, ?_⟩
  · intro cfg painter fs delegate n k current e h
    simp only [runIterations, h]
  · intro cfg msg image_path file hv
    obtain ⟨ex, dec⟩ := file
    simp only [validInput, Bool.and_eq_true] at hv
    obtain ⟨⟨h1, h2⟩, h3⟩ := hv
    subst h1
    obtain ⟨m, hm⟩ := Option.isSome_iff_exists.mp h2
    subst hm
    refine ⟨m, rfl, ?_⟩
    cases cfg <;>
      simp only [describe, h3, Bool.not_true, Bool.false_eq_true, if_false, if_true]
  · intro cfg painter fs msg n k current hp
    obtain ⟨records, h1, h2, _⟩ :=
      runIterations_ok cfg painter fs (fun _ => .raises msg) hp n k current
    exact ⟨records, h1, h2⟩

/-- Witness for C5 as amended, at concrete oracles for all three parts. -/
theorem C5_amended_witness :
    runIterations false (fun _ _ => .error "boom") demoFs demoDelegate 4 1 "seed" =
      .error (.painterFailure 1 "boom") ∧
    (∃ m, demoFileRGB.decoded = some m ∧
      (describe true (.raises "api down") "a.png" demoFileRGB).result =
        .ok (fallbackCaption m)) ∧
    (∃ records,
      runIterations false (fun _ _ => .ok "generated_images/img.png") demoFs
          (fun _ => .raises "api down") 4 1 "seed" = .ok records ∧
        records.length = 4) :=
  ⟨C5_amended.1 false (fun _ _ => .error "boom") demoFs demoDelegate 3 1 "seed" "boom" rfl,
   C5_amended.2.1 true "api down" "a.png" demoFileRGB (by decide),
   C5_amended.2.2 false (fun _ _ => .ok "generated_images/img.png") demoFs "api down"
     4 1 "seed" (fun _ _ => ⟨"generated_images/img.png", rfl, by decide⟩)⟩

/-- C6 counterexample: with the text-completion configuration present and
both AZURE_DALLE variables unset, the run passes startup and fails only at
the painter call of iteration one, so the missing image-synthesis
configuration is not fatal at startup before any loop iteration. -/
theorem C6_counterexample :
    textConfigured demoEnvNoDalle = true ∧ dalleConfigured demoEnvNoDalle = false ∧
    isStartupConfigError (main demoEnvNoDalle (.ok "seed")
      (painterFromTool demoEnvNoDalle (.ok "https://img.example/u.png") (.ok ())
        "20240101_120000") demoFs demoDelegate) = false ∧
    main demoEnvNoDalle (.ok "seed")
      (painterFromTool demoEnvNoDalle (.ok "https://img.example/u.png") (.ok ())
        "20240101_120000") demoFs demoDelegate =
      .error (.painterFailure 1 ("Missing required environment variables. " ++
        "Please set AZURE_OPENAI_ENDPOINT and AZURE_OPENAI_API_KEY")) :=
  ⟨by decide, by decide, by decide, by decide⟩

/-- C6 as amended: a missing text-completion configuration is fatal at
startup before any loop iteration; a missing image-synthesis configuration
is fatal only once the first generator call of iteration one reaches the
image tool, whose configuration ValueError then aborts the run; a missing
vision-captioning configuration only puts the Describer in degraded mode on
valid images, with the delegate never invoked, and is never fatal there. -/
theorem C6_amended :
    (∀ (env : Env) (seed : Except String String)
        (painter : Nat → String → Except String String) (fs : String → FileView)
        (delegate : Nat → DelegateOutcome),
        textConfigured env = false →
        main env seed painter fs delegate = .error (.startupConfig
          ("Missing required environment variables. " ++
           "Please set AZURE_OPENAI_ENDPOINT, AZURE_OPENAI_API_KEY, " ++
           "and AZURE_OPENAI_DEPLOYMENT_NAME"))) ∧
    (∀ (env : Env) (seedContent : String) (imagesResult : Except String String)
        (downloadOk : Except String Unit) (timestamp : String)
        (fs : String → FileView) (delegate : Nat → DelegateOutcome),
        textConfigured env = true → dalleConfigured env = false →
        main env (.ok seedContent)
            (painterFromTool env imagesResult downloadOk timestamp) fs delegate =
          .error (.painterFailure 1 ("Missing required environment variables. " ++
            "Please set AZURE_OPENAI_ENDPOINT and AZURE_OPENAI_API_KEY"))) ∧
    (∀ (env : Env) (d : DelegateOutcome) (image_path : String) (file : FileView),
        visionConfigured env = false → validInput image_path file = true →
        ∃ m, file.decoded = some m ∧
          (describe_image env d image_path file).result = .ok (fallbackCaption m) ∧
          (describe_image env d image_path file).delegateInvoked = false) := by
  refine ⟨?_, ?_, ?_⟩
  · intro env seed painter fs delegate h
    simp only [main, h, Bool.not_false, if_true]
  · intro env seedContent imagesResult downloadOk timestamp fs delegate ht hd
    simp only [main, generate_random_initial_prompt, runIterations, painterFromTool,
      generate_image, ht, hd, Bool.not_true, Bool.not_false, Bool.false_eq_true,
      if_false, if_true]
  · intro env d image_path file hcfg hv
    obtain ⟨ex, dec⟩ := file
    simp only [validInput, Bool.and_eq_true] at hv
    obtain ⟨⟨h1, h2⟩, h3⟩ := hv
    subst h1
    obtain ⟨m, hm⟩ := Option.isSome_iff_exists.mp h2
    subst hm
    refine ⟨m, rfl, ?_, ?_⟩ <;>
      simp only [describe_image, hcfg, describe, h3, Bool.not_true, Bool.false_eq_true,
        if_false, Bool.not_false, if_true]

/-- Witness for C6 as amended, at concrete environments for all parts. -/
theorem C6_amended_witness :
    main demoEnvEmpty (.ok "seed") (fun _ _ => .ok "a.png") demoFs demoDelegate =
      .error (.startupConfig ("Missing required environment variables. " ++
        "Please set AZURE_OPENAI_ENDPOINT, AZURE_OPENAI_API_KEY, " ++
        "and AZURE_OPENAI_DEPLOYMENT_NAME")) ∧
    main demoEnvNoDalle (.ok "seed")
        (painterFromTool demoEnvNoDalle (.ok "u") (.ok ()) "ts") demoFs demoDelegate =
      .error (.painterFailure 1 ("Missing required environment variables. " ++
        "Please set AZURE_OPENAI_ENDPOINT and AZURE_OPENAI_API_KEY")) ∧
    (∃ m, demoFileRGB.decoded = some m ∧
      (describe_image demoEnvEmpty (.returns { output_text := some "hi", output := none })
          "b.png" demoFileRGB).result = .ok (fallbackCaption m) ∧
      (describe_image demoEnvEmpty (.returns { output_text := some "hi", output := none })
          "b.png" demoFileRGB).delegateInvoked = false) :=
  ⟨C6_amended.1 demoEnvEmpty (.ok "seed") (fun _ _ => .ok "a.png") demoFs demoDelegate
      (by decide),
   C6_amended.2.1 demoEnvNoDalle "seed" (.ok "u") (.ok ()) "ts" demoFs demoDelegate
      (by decide) (by decide),
   C6_amended.2.2 demoEnvEmpty (.returns { output_text := some "hi", output := none })
      "b.png" demoFileRGB (by decide) (by decide)⟩

end Gluchy
